import Mathlib

/-!
Verification of the lab-environment cleanup scripts.

The repository holds two Databricks notebook scripts:
  * `Lab 00 - Delta/Utils/cleanup-delta-lab-env.py`
  * `Lab 01 - Data Engineering/Utils/cleanup-lab-environment.py`
Each resolves the current user's identity string, derives a dataset
path and a database name from it, and issues a recursive file delete
and a conditional database drop against external collaborators.

We embed each script as a pure function from the identity string to a
list of emitted effects (storage deletes, catalog statements, printed
text), modelling Python string `split`/`replace` at the character-list
level.
-/

/-- Head of Python's `s.split(c)`: the characters of `s` strictly before
the first occurrence of `c`, the whole list when `c` does not occur. -/
def splitAtFirst (c : Char) : List Char → List Char
  | [] => []
  | x :: xs => if x = c then [] else x :: splitAtFirst c xs

/-- Python `s.split(sep)[0]` for a one-character separator. -/
def pySplitHead (sep : Char) (s : String) : String :=
  ⟨splitAtFirst sep s.data⟩

/-- Python `s.replace(old, new)` for one-character `old` and `new`:
every occurrence of `old` is replaced by `new`. -/
def pyReplaceChar (old new : Char) (s : String) : String :=
  ⟨s.data.map (fun c => if c = old then new else c)⟩

/-- Source line `database_name = current_user_id.split('@')[0].replace('.','_')+'_bootcamp'`
(identical in both scripts). -/
def database_name (current_user_id : String) : String :=
  pyReplaceChar '.' '_' (pySplitHead '@' current_user_id) ++ "_bootcamp"

/-- Source line with the f-string `datasets_location` template
(identical in both scripts): the constant prefix, the identity
verbatim, the constant suffix. -/
def datasets_location (current_user_id : String) : String :=
  "/FileStore/tmp/" ++ current_user_id ++ "/datasets/"

/-- Source line `catalog_name = 'tbd_ville_test'` in the Lab 00 script. -/
def catalog_name : String := "tbd_ville_test"

/-- One observable effect of a script run: a recursive-capable storage
delete (`dbutils.fs.rm(path, recurse)`), a catalog statement
(`spark.sql(statement)`), or printed confirmation text (`print`). -/
inductive Effect where
  | fsRm (path : String) (recurse : Bool)
  | sparkSql (statement : String)
  | printMsg (text : String)
  deriving DecidableEq

/-- Whether an effect is a call to an external backend (storage or
catalog); printed text is not a backend call. -/
def isBackend : Effect → Bool
  | Effect.printMsg _ => false
  | _ => true

/-- The backend calls of a run, in order: the effect trace with printed
text removed. -/
def backendCalls (es : List Effect) : List Effect :=
  es.filter isBackend

/-- The effect trace of `Lab 01 - Data Engineering/Utils/cleanup-lab-environment.py`
as a function of the identity the notebook context supplies:
recursive delete of `datasets_location`, a confirmation print, the
conditional database drop, a second confirmation print. -/
def cleanupLabEnvironment (current_user_id : String) : List Effect :=
  [ Effect.fsRm (datasets_location current_user_id) true,
    Effect.printMsg ("Deleted data files from location: " ++ datasets_location current_user_id),
    Effect.sparkSql ("drop database if exists " ++ database_name current_user_id ++ " cascade;"),
    Effect.printMsg ("Deleted database: " ++ database_name current_user_id) ]

/-- The catalog-selection statement the Lab 00 script issues:
`spark.sql(f'use catalog {catalog_name};')`. -/
def useCatalogStmt : Effect :=
  Effect.sparkSql ("use catalog " ++ catalog_name ++ ";")

/-- The effect trace of `Lab 00 - Delta/Utils/cleanup-delta-lab-env.py`
as a function of the identity: catalog selection, recursive delete of
`datasets_location`, conditional database drop. -/
def cleanupDeltaLabEnv (current_user_id : String) : List Effect :=
  [ useCatalogStmt,
    Effect.fsRm (datasets_location current_user_id) true,
    Effect.sparkSql ("drop database if exists " ++ database_name current_user_id ++ " cascade;") ]

/-- A statement has one of the two catalog-statement shapes: namespace
selection or conditional cascading drop. -/
def catalogStmtShape (s : String) : Prop :=
  (∃ n, s = "use catalog " ++ n ++ ";") ∨
  (∃ n, s = "drop database if exists " ++ n ++ " cascade;")

theorem string_data_append (s t : String) : (s ++ t).data = s.data ++ t.data :=
  rfl

theorem splitAtFirst_append_cons (c : Char) (u rest : List Char) (h : c ∉ u) :
    splitAtFirst c (u ++ c :: rest) = u := by
  induction u with
  | nil => simp [splitAtFirst]
  | cons x xs ih =>
    have hx : ¬ x = c := fun hxc => h (hxc ▸ List.mem_cons_self x xs)
    have hxs : c ∉ xs := fun hm => h (List.mem_cons_of_mem x hm)
    simp [splitAtFirst, hx, ih hxs]

theorem splitAtFirst_of_not_mem (c : Char) (l : List Char) (h : c ∉ l) :
    splitAtFirst c l = l := by
  induction l with
  | nil => rfl
  | cons x xs ih =>
    have hx : ¬ x = c := fun hxc => h (hxc ▸ List.mem_cons_self x xs)
    have hxs : c ∉ xs := fun hm => h (List.mem_cons_of_mem x hm)
    simp [splitAtFirst, hx, ih hxs]

theorem database_name_append (u d : String) (h : '@' ∉ u.data) :
    database_name (u ++ "@" ++ d) = pyReplaceChar '.' '_' u ++ "_bootcamp" := by
  have hdata : (u ++ "@" ++ d).data = u.data ++ '@' :: d.data := by
    simp [string_data_append]
  unfold database_name pySplitHead
  rw [hdata, splitAtFirst_append_cons '@' u.data d.data h]

/-- Claim C1: for every identity of the form `u@d` whose local part `u`
contains no `@`, the derived database name is `u` with every `.`
replaced by `_`, followed by the literal suffix `_bootcamp`. -/
theorem C1_database_name_from_local_part (u d : String) (h : '@' ∉ u.data) :
    database_name (u ++ "@" ++ d) = pyReplaceChar '.' '_' u ++ "_bootcamp" :=
  database_name_append u d h

/-- Claim C1 witness: identity `jane.doe@example.com` yields database
name `jane_doe_bootcamp`. -/
theorem C1_witness :
    ('@' ∉ "jane.doe".data) ∧
      database_name ("jane.doe" ++ "@" ++ "example.com") = "jane_doe_bootcamp" := by
  refine ⟨by decide, ?_⟩
  have h := C1_database_name_from_local_part "jane.doe" "example.com" (by decide)
  rw [h]
  rfl

/-- Claim C2 counterexample: the identity `noat` contains no `@`, yet
the routine does not fail before its backend calls: Python's
`split('@')[0]` simply returns the whole string, and the run issues a
storage delete and a drop statement (two backend calls, not zero). -/
theorem C2_counterexample :
    ('@' ∉ "noat".data) ∧
      backendCalls (cleanupLabEnvironment "noat") =
        [ Effect.fsRm "/FileStore/tmp/noat/datasets/" true,
          Effect.sparkSql "drop database if exists noat_bootcamp cascade;" ] := by
  constructor
  · decide
  · rfl

/-- Claim C2 amended: for every identity containing no `@`, the routine
does not fail; it proceeds, treating the entire identity as the local
part, and issues the usual delete call and drop statement (database
name = whole identity with `.` replaced by `_`, plus `_bootcamp`). -/
theorem C2_amended_no_at_proceeds (id : String) (h : '@' ∉ id.data) :
    database_name id = pyReplaceChar '.' '_' id ++ "_bootcamp" ∧
      backendCalls (cleanupLabEnvironment id) =
        [ Effect.fsRm (datasets_location id) true,
          Effect.sparkSql
            ("drop database if exists " ++ (pyReplaceChar '.' '_' id ++ "_bootcamp") ++ " cascade;") ] := by
  have hdb : database_name id = pyReplaceChar '.' '_' id ++ "_bootcamp" := by
    unfold database_name pySplitHead
    rw [splitAtFirst_of_not_mem '@' id.data h]
  refine ⟨hdb, ?_⟩
  simp [backendCalls, cleanupLabEnvironment, isBackend, hdb]

/-- Claim C2 amended witness: at identity `noat` the hypothesis holds
and the amended conclusion follows. -/
theorem C2_amended_witness :
    ('@' ∉ "noat".data) ∧
      (database_name "noat" = pyReplaceChar '.' '_' "noat" ++ "_bootcamp" ∧
        backendCalls (cleanupLabEnvironment "noat") =
          [ Effect.fsRm (datasets_location "noat") true,
            Effect.sparkSql
              ("drop database if exists " ++ (pyReplaceChar '.' '_' "noat" ++ "_bootcamp") ++ " cascade;") ]) :=
  ⟨by decide, C2_amended_no_at_proceeds "noat" (by decide)⟩

/-- Claim C3: running the no-catalog variant on identity `a.b@co.com`
issues exactly one storage delete — with recursive path ending in
`/a.b@co.com/datasets/` — followed by exactly one catalog statement
`drop database if exists a_b_bootcamp cascade;`, and no other backend
calls, the delete strictly before the drop. -/
theorem C3_end_to_end_run :
    backendCalls (cleanupLabEnvironment "a.b@co.com") =
      [ Effect.fsRm "/FileStore/tmp/a.b@co.com/datasets/" true,
        Effect.sparkSql "drop database if exists a_b_bootcamp cascade;" ] ∧
      ("/a.b@co.com/datasets/").data <:+ ("/FileStore/tmp/a.b@co.com/datasets/").data := by
  constructor
  · rfl
  · decide

/-- Claim C4: for every identity, the dataset path is the constant
template prefix `/FileStore/tmp/`, then the identity verbatim, then
the constant suffix `/datasets/` — also at the character level. -/
theorem C4_datasets_location_template (id : String) :
    datasets_location id = "/FileStore/tmp/" ++ id ++ "/datasets/" ∧
      (datasets_location id).data =
        ("/FileStore/tmp/").data ++ id.data ++ ("/datasets/").data := by
  refine ⟨rfl, ?_⟩
  simp [datasets_location, string_data_append]

/-- Claim C5: in the catalog variant, the namespace-selection statement
is the very first effect of the run — in particular no delete call and
no drop statement precedes it (the effects strictly before its first
occurrence are none). -/
theorem C5_use_catalog_first (id : String) :
    (cleanupDeltaLabEnv id).head? = some useCatalogStmt ∧
      (cleanupDeltaLabEnv id).takeWhile (fun e => decide (e ≠ useCatalogStmt)) = [] := by
  constructor
  · rfl
  · simp [cleanupDeltaLabEnv]

/-- Claim C6: the routine is deterministic in the identity — two runs
on equal identity strings compute the same database name and dataset
path and emit the same effect traces, in both script variants. -/
theorem C6_deterministic (id1 id2 : String) (h : id1 = id2) :
    database_name id1 = database_name id2 ∧
      datasets_location id1 = datasets_location id2 ∧
      cleanupLabEnvironment id1 = cleanupLabEnvironment id2 ∧
      cleanupDeltaLabEnv id1 = cleanupDeltaLabEnv id2 := by
  subst h
  exact ⟨rfl, rfl, rfl, rfl⟩

/-- Claim C6 witness: instantiated at the identity `a.b@co.com`. -/
theorem C6_witness :
    ("a.b@co.com" : String) = "a.b@co.com" ∧
      (database_name "a.b@co.com" = database_name "a.b@co.com" ∧
        datasets_location "a.b@co.com" = datasets_location "a.b@co.com" ∧
        cleanupLabEnvironment "a.b@co.com" = cleanupLabEnvironment "a.b@co.com" ∧
        cleanupDeltaLabEnv "a.b@co.com" = cleanupDeltaLabEnv "a.b@co.com") :=
  ⟨rfl, C6_deterministic "a.b@co.com" "a.b@co.com" rfl⟩

/-- Claim C7: every statement either script sends to the catalog
collaborator has one of exactly two shapes — a namespace selection
`use catalog <name>;` or a conditional drop
`drop database if exists <name> cascade;`. -/
theorem C7_catalog_stmt_shapes (id s : String)
    (h : Effect.sparkSql s ∈ cleanupLabEnvironment id ∨
      Effect.sparkSql s ∈ cleanupDeltaLabEnv id) :
    catalogStmtShape s := by
  rcases h with h | h
  · simp [cleanupLabEnvironment] at h
    exact Or.inr ⟨database_name id, h⟩
  · simp [cleanupDeltaLabEnv, useCatalogStmt] at h
    rcases h with h | h
    · exact Or.inl ⟨catalog_name, h⟩
    · exact Or.inr ⟨database_name id, h⟩

/-- Claim C7 witness: the drop statement emitted for `a.b@co.com` is a
member of the trace and has one of the two shapes. -/
theorem C7_witness :
    (Effect.sparkSql "drop database if exists a_b_bootcamp cascade;" ∈
        cleanupLabEnvironment "a.b@co.com" ∨
      Effect.sparkSql "drop database if exists a_b_bootcamp cascade;" ∈
        cleanupDeltaLabEnv "a.b@co.com") ∧
      catalogStmtShape "drop database if exists a_b_bootcamp cascade;" :=
  ⟨Or.inl (by decide),
    C7_catalog_stmt_shapes "a.b@co.com" "drop database if exists a_b_bootcamp cascade;"
      (Or.inl (by decide))⟩

/-- Claim C8: the two script variants are semantically equivalent up to
configuration — for every identity, the Lab 00 trace is exactly the
catalog-selection statement followed by the backend calls of the
Lab 01 trace (same delete path, same recursive flag, same drop
statement); they differ only in the catalog selection and in the
printed confirmation text that `backendCalls` removes. -/
theorem C8_variants_equivalent (id : String) :
    cleanupDeltaLabEnv id = useCatalogStmt :: backendCalls (cleanupLabEnvironment id) :=
  rfl

theorem splitAtFirst_eq_takeWhile (c : Char) (l : List Char) :
    splitAtFirst c l = l.takeWhile (fun x => decide (x ≠ c)) := by
  induction l with
  | nil => rfl
  | cons x xs ih =>
    by_cases hx : x = c
    · simp [splitAtFirst, hx]
    · simp [splitAtFirst, hx, ih]

/-- Claim C9: for every identity containing at least one `@`, no error
is raised and the database name is derived from the substring strictly
before the first `@` (the characters taken while distinct from `@`),
so identities with several `@` use only the first segment. -/
theorem C9_first_segment (id : String) (h : '@' ∈ id.data) :
    database_name id =
      pyReplaceChar '.' '_' ⟨id.data.takeWhile (fun c => decide (c ≠ '@'))⟩ ++ "_bootcamp" := by
  unfold database_name pySplitHead
  rw [splitAtFirst_eq_takeWhile]

/-- Claim C9 witness: the identity `a@b@c.d` has two `@` and yields
`a_bootcamp`, from the first segment only. -/
theorem C9_witness :
    ('@' ∈ "a@b@c.d".data) ∧
      database_name "a@b@c.d" =
        pyReplaceChar '.' '_' ⟨"a@b@c.d".data.takeWhile (fun c => decide (c ≠ '@'))⟩ ++ "_bootcamp" :=
  ⟨by decide, C9_first_segment "a@b@c.d" (by decide)⟩

/-- Claim C10: every storage delete call either script issues carries
the recursive flag `true` and the exact path
`/FileStore/tmp/` ++ identity ++ `/datasets/`, the prefix and suffix
being constants independent of the identity. -/
theorem C10_rm_recursive_fixed_path (id p : String) (r : Bool)
    (h : Effect.fsRm p r ∈ cleanupLabEnvironment id ∨
      Effect.fsRm p r ∈ cleanupDeltaLabEnv id) :
    r = true ∧ p = "/FileStore/tmp/" ++ id ++ "/datasets/" := by
  rcases h with h | h <;>
    simp [cleanupLabEnvironment, cleanupDeltaLabEnv, useCatalogStmt, datasets_location] at h <;>
    exact ⟨h.2, h.1⟩

/-- Claim C10 witness: instantiated at identity `a.b@co.com` and the
delete call found in the Lab 01 trace. -/
theorem C10_witness :
    (Effect.fsRm "/FileStore/tmp/a.b@co.com/datasets/" true ∈
        cleanupLabEnvironment "a.b@co.com" ∨
      Effect.fsRm "/FileStore/tmp/a.b@co.com/datasets/" true ∈
        cleanupDeltaLabEnv "a.b@co.com") ∧
      (true = true ∧
        "/FileStore/tmp/a.b@co.com/datasets/" = "/FileStore/tmp/" ++ "a.b@co.com" ++ "/datasets/") :=
  ⟨Or.inl (by decide),
    C10_rm_recursive_fixed_path "a.b@co.com" "/FileStore/tmp/a.b@co.com/datasets/" true
      (Or.inl (by decide))⟩
